import Mathlib

/-!
Verification development for the amadeus-mcp hotel server core
(`dist/index.js`): token lifecycle, discovery pipeline, offer/booking
orchestrators and the mock-data degradation layer.  JavaScript numbers on
the price paths are modelled as exact rationals (all computed amounts here
are decimal-exact), instants (`Date.now()`, parsed dates) as integer
milliseconds, and the upstream HTTP service as an oracle record whose calls
either return parsed JSON or fail with a gateway error.
-/

set_option autoImplicit false

namespace Amadeus

/-- Failure of an upstream HTTP call as classified by `makeAmadeusRequest`:
a non-success status with its raw body, or a transport-level failure. -/
inductive GatewayError where
  | httpError (status : Nat) (body : String)
  | networkError (msg : String)
deriving DecidableEq, Repr

/-- Errors thrown inside `hotelSearchImplementation`: a propagated gateway
error, the `No hotels found in city` error (NoInventory), or the
`Could not extract valid hotel IDs` error. -/
inductive SearchError where
  | gateway (e : GatewayError)
  | noInventory (cityCode : String)
  | noValidIds
deriving DecidableEq, Repr

/-- JavaScript truthiness for an optional string field: `undefined`/missing
and the empty string are falsy. -/
def truthyStr : Option String → Option String
  | none => none
  | some s => if s = "" then none else some s

/-- The fields of an upstream hotel record that the orchestration core reads
(`hotel.hotelId`, `hotel.name`, `hotel.rating`); each may be absent. -/
structure Hotel where
  hotelId : Option String
  name : Option String
  rating : Option Nat
deriving DecidableEq, Repr

/-- `hotel.rating || 4`: a missing or zero (falsy) rating defaults to 4. -/
def jsRating : Option Nat → Nat
  | none => 4
  | some r => if r = 0 then 4 else r

/-- `hotel.hotelId` filtered through JavaScript truthiness, as used by
`.filter(Boolean)` and by `hotel.hotelId || ...` defaults. -/
def truthyId (h : Hotel) : Option String :=
  truthyStr h.hotelId

/-- One tax line of a price breakdown. -/
structure Tax where
  amount : ℚ
  currency : String
  included : Bool
deriving DecidableEq, Repr

/-- Price breakdown of an offer: base, total and itemized taxes. -/
structure Price where
  currency : String
  base : ℚ
  total : ℚ
  taxes : List Tax
deriving DecidableEq, Repr

/-- Room block of an offer (type, estimated category, description text). -/
structure Room where
  type : String
  category : String
  beds : Nat
  bedType : String
  descText : String
deriving DecidableEq, Repr

/-- One cancellation policy line; the deadline is an instant in epoch
milliseconds (the embedding of the ISO string the source stores). -/
structure Cancellation where
  deadline : Int
  amount : ℚ
  type : String
deriving DecidableEq, Repr

/-- Fixed check-in/check-out times of a policy block. -/
structure CheckInOut where
  checkIn : String
  checkOut : String
deriving DecidableEq, Repr

/-- Policy block of an offer. -/
structure Policies where
  cancellations : List Cancellation
  checkInOut : CheckInOut
deriving DecidableEq, Repr

/-- A priced offer; dates are epoch-millisecond instants. -/
structure Offer where
  id : String
  checkInDate : Int
  checkOutDate : Int
  room : Room
  price : Price
  boardType : String
  policies : Policies
deriving DecidableEq, Repr

/-- One entry of a hotel-offers search response: a hotel with its offers. -/
structure HotelOffersEntry where
  hotel : Hotel
  available : Bool
  offers : List Offer
deriving DecidableEq, Repr

/-- The `{data: [...]}` envelope of the offers search response. -/
structure SearchResponse where
  data : List HotelOffersEntry
deriving DecidableEq, Repr

/-- Validated parameters of `amadeus_hotel_search` that the orchestration
core reads; dates are epoch-millisecond instants per the data model. -/
structure SearchParams where
  cityCode : String
  checkInDate : Int
  checkOutDate : Int
  adults : Nat
  roomQuantity : Nat
  currency : Option String
  priceRange : Option String
  boardType : Option String
  paymentPolicy : Option String
  hotelName : Option String
deriving DecidableEq, Repr

/-- Guest name block of a booking request. -/
structure GuestName where
  title : String
  firstName : String
  lastName : String
deriving DecidableEq, Repr

/-- Guest contact block of a booking request. -/
structure GuestContact where
  email : String
  phone : String
deriving DecidableEq, Repr

/-- One guest of a booking request. -/
structure Guest where
  name : GuestName
  contact : GuestContact
deriving DecidableEq, Repr

/-- Card details of a payment instrument. -/
structure Card where
  vendorCode : String
  cardNumber : String
  expiryDate : String
deriving DecidableEq, Repr

/-- One payment instrument of a booking request. -/
structure Payment where
  method : String
  card : Option Card
deriving DecidableEq, Repr

/-- Validated parameters of `amadeus_hotel_booking`. -/
structure BookingParams where
  offerId : String
  guests : List Guest
  payments : List Payment
deriving DecidableEq, Repr

/-- The `data` payload `hotelBooking` posts to the booking endpoint; the
source rebuilds the guest and payment objects field by field, which is the
identity on these records. -/
structure BookingBody where
  offerId : String
  guests : List Guest
  payments : List Payment
deriving DecidableEq, Repr

/-- One associated record of a booking confirmation. -/
structure AssociatedRecord where
  reference : String
  originSystemCode : String
deriving DecidableEq, Repr

/-- Booking confirmation payload (the mock additionally echoes the guest
list and the offer identifier). -/
structure BookingData where
  id : String
  providerConfirmationId : String
  associatedRecords : List AssociatedRecord
  guests : List Guest
  offerId : String
deriving DecidableEq, Repr

/-- The `{data: ...}` envelope of a booking response. -/
structure BookingResponse where
  data : BookingData
deriving DecidableEq, Repr

/-- Hotel block of the offer-detail response (fields the detail mock
fills that the claims read). -/
structure DetailHotel where
  name : String
  hotelId : String
  rating : Nat
deriving DecidableEq, Repr

/-- Payload of the offer-detail response; the hardcoded mock dates stay as
their literal strings. -/
structure DetailData where
  hotel : DetailHotel
  id : String
  checkInDate : String
  checkOutDate : String
  room : Room
  price : Price
  boardType : String
  policies : Policies
deriving DecidableEq, Repr

/-- The `{data: ...}` envelope of an offer-detail response. -/
structure DetailResponse where
  data : DetailData
deriving DecidableEq, Repr

/-- The upstream Amadeus service as seen through the authenticated request
gateway: each endpoint either returns parsed JSON of the documented shape
or fails with a `GatewayError` (covering token, transport and HTTP-status
failures surfaced by `makeAmadeusRequest`). -/
structure Upstream where
  listHotels : String → Except GatewayError (List Hotel)
  getOffers : List String → SearchParams → Except GatewayError SearchResponse
  getOfferById : String → Except GatewayError DetailResponse
  postBooking : BookingBody → Except GatewayError BookingResponse

/-! ## Token Manager (`getAccessToken`, lines 127-165) -/

/-- The process-wide token cache: `accessToken` (initially `null`) and
`tokenExpiry` (initially `0`), in epoch milliseconds. -/
structure TokenState where
  accessToken : Option String
  tokenExpiry : Int
deriving DecidableEq, Repr

/-- Parsed body of a successful client-credentials exchange. -/
structure TokenResponse where
  access_token : String
  expires_in : Int
deriving DecidableEq, Repr

/-- Decidable equality on `Except`, for concrete evaluation of results. -/
instance {ε α : Type} [DecidableEq ε] [DecidableEq α] :
    DecidableEq (Except ε α) := fun x y =>
  match x, y with
  | .ok a, .ok b =>
      if h : a = b then isTrue (congrArg Except.ok h)
      else isFalse (fun hc => h (Except.ok.inj hc))
  | .error a, .error b =>
      if h : a = b then isTrue (congrArg Except.error h)
      else isFalse (fun hc => h (Except.error.inj hc))
  | .ok _, .error _ => isFalse (fun hc => Except.noConfusion hc)
  | .error _, .ok _ => isFalse (fun hc => Except.noConfusion hc)

/-- Result of one `getAccessToken` call: the returned token or the thrown
error, the token state after the call, and whether a credential exchange
was issued. -/
structure TokenStep where
  result : Except GatewayError String
  state : TokenState
  exchanged : Bool
deriving DecidableEq, Repr

/-- JavaScript truthiness of the cached `accessToken` variable. -/
def tokenTruthy (st : TokenState) : Bool :=
  match st.accessToken with
  | none => false
  | some s => s ≠ ""

/-- The cached token value (`accessToken` when truthy). -/
def cachedValue (st : TokenState) : String :=
  st.accessToken.getD ""

/-- `getAccessToken`: return the cached token if `accessToken && tokenExpiry
> now`; otherwise run the credential exchange (`exchange` is its outcome),
and on success store the new token with `tokenExpiry = now + expires_in *
1000 - 60000`; on failure rethrow, leaving the cache untouched. -/
def getAccessToken (st : TokenState) (now : Int)
    (exchange : Except GatewayError TokenResponse) : TokenStep :=
  if tokenTruthy st = true ∧ st.tokenExpiry > now then
    { result := .ok (cachedValue st), state := st, exchanged := false }
  else
    match exchange with
    | .error e => { result := .error e, state := st, exchanged := true }
    | .ok data =>
        { result := .ok data.access_token,
          state := { accessToken := some data.access_token,
                     tokenExpiry := now + data.expires_in * 1000 - 60000 },
          exchanged := true }

/-! ## Hotel Discovery Pipeline (`hotelSearchImplementation`, lines 490-529) -/

/-- ASCII lowercasing, the embedding of `String.prototype.toLowerCase` on
the ASCII identifiers and names involved (character-by-character map). -/
def strLower (s : String) : String :=
  String.mk (s.data.map Char.toLower)

/-- Whether `sub` occurs contiguously inside `hay`, head-first scan. -/
def listStartsWith : List Char → List Char → Bool
  | _, [] => true
  | [], _ :: _ => false
  | a :: hay, b :: sub => a = b && listStartsWith hay sub

/-- Substring occurrence on character lists, scanning every start index. -/
def listContainsSub (sub : List Char) : List Char → Bool
  | [] => listStartsWith [] sub
  | c :: t => listStartsWith (c :: t) sub || listContainsSub sub t

/-- `hay.includes(sub)` of JavaScript strings. -/
def jsIncludes (hay sub : String) : Bool :=
  listContainsSub sub.toList hay.toList

/-- The client-side name predicate: `hotel.name &&
hotel.name.toLowerCase().includes(searchTerm)` (searchTerm already
lowercased by the caller). -/
def hotelNameMatches (searchTerm : String) (h : Hotel) : Bool :=
  match truthyStr h.name with
  | none => false
  | some n => jsIncludes (strLower n) searchTerm

/-- The name-filter step of `hotelSearchImplementation`: when a (truthy)
name filter is present, keep hotels matching it case-insensitively, but
fall back to the unfiltered list when nothing matches. -/
def discoverHotels (hotels : List Hotel) (nameFilter : Option String) :
    List Hotel :=
  match truthyStr nameFilter with
  | none => hotels
  | some term =>
      let searchTerm := strLower term
      let filtered := hotels.filter (hotelNameMatches searchTerm)
      if filtered.isEmpty then hotels else filtered

/-- Steps 1-2 of `hotelSearchImplementation`: list hotels for the city,
fail with NoInventory on an empty listing, apply the advisory name filter,
truncate to the first 5 hotels, and keep their truthy identifiers, failing
when none remain. -/
def discoverHotelIds (u : Upstream) (cityCode : String)
    (nameFilter : Option String) : Except SearchError (List String) :=
  match u.listHotels cityCode with
  | .error e => .error (.gateway e)
  | .ok hotels =>
      if hotels.isEmpty then .error (.noInventory cityCode)
      else
        let filteredHotels := discoverHotels hotels nameFilter
        let hotelsToCheck := filteredHotels.take 5
        let hotelIds := hotelsToCheck.filterMap truthyId
        if hotelIds.isEmpty then .error .noValidIds
        else .ok hotelIds

/-- `hotelSearchImplementation`: discovery followed by the offers request
(`makeOffersRequest` forwards the identifier list and the search
parameters to the v3 offers endpoint). -/
def hotelSearchImplementation (u : Upstream) (p : SearchParams) :
    Except SearchError SearchResponse :=
  match discoverHotelIds u p.cityCode p.hotelName with
  | .error e => .error e
  | .ok hotelIds =>
      match u.getOffers hotelIds p with
      | .error e => .error (.gateway e)
      | .ok r => .ok r

/-! ## Degradation Layer (`getMockHotelOffers`, lines 264-392;
`getMockHotelOfferDetails`, lines 396-467; `getMockBookingConfirmation`,
lines 471-486) -/

/-- The synthetic offer `getMockHotelOffers` builds for one known hotel:
identifier `OFF-<hotelId>-<Date.now()>`, base price `100 + rating * 50`,
total `base * 1.1`, one included tax of `base * 0.1`, SUITE room for rating
at least 5, cancellation deadline three days before check-in, fixed
check-in/out times.  `now` is `Date.now()` and `rnd` the random draw used
when the hotel lacks an identifier. -/
def mockOfferForHotel (h : Hotel) (checkInDate checkOutDate : Int)
    (now rnd : Nat) : HotelOffersEntry :=
  let hotelId := (truthyId h).getD ("MOCK-" ++ toString rnd)
  let rating := jsRating h.rating
  let offerId := "OFF-" ++ hotelId ++ "-" ++ toString now
  let basePrice : ℚ := 100 + rating * 50
  { hotel := h,
    available := true,
    offers := [
      { id := offerId,
        checkInDate := checkInDate,
        checkOutDate := checkOutDate,
        room :=
          { type := if rating ≥ 5 then "SUITE" else "STANDARD",
            category := if rating ≥ 5 then "SUITE" else "STANDARD",
            beds := 1,
            bedType := "KING",
            descText :=
              if rating ≥ 5 then "Beautiful suite with luxury amenities."
              else "Beautiful room with standard amenities." },
        price :=
          { currency := "USD",
            base := basePrice,
            total := basePrice * 1.1,
            taxes := [
              { amount := basePrice * 0.1, currency := "USD",
                included := true }] },
        boardType := "BREAKFAST_INCLUDED",
        policies :=
          { cancellations := [
              { deadline := checkInDate - 86400000 * 3,
                amount := basePrice * 0.2,
                type := "PARTIAL" }],
            checkInOut := { checkIn := "15:00", checkOut := "11:00" } } }] }

/-- The basic single-hotel mock `getMockHotelOffers` returns from its catch
block when even the hotel listing failed. -/
def basicMockEntry (cityCode : String) (checkInDate checkOutDate : Int)
    (now : Nat) : HotelOffersEntry :=
  { hotel :=
      { hotelId := some ("MOCK-" ++ cityCode ++ "-001"),
        name := some (cityCode ++ " Grand Hotel"),
        rating := some 4 },
    available := true,
    offers := [
      { id := "OFF-MOCK-" ++ toString now,
        checkInDate := checkInDate,
        checkOutDate := checkOutDate,
        room :=
          { type := "STANDARD", category := "STANDARD", beds := 1,
            bedType := "KING",
            descText := "Comfortable standard room with modern amenities." },
        price :=
          { currency := "USD", base := 250, total := 275,
            taxes := [{ amount := 25, currency := "USD", included := true }] },
        boardType := "BREAKFAST_INCLUDED",
        policies :=
          { cancellations := [
              { deadline := checkInDate - 86400000 * 3, amount := 50,
                type := "PARTIAL" }],
            checkInOut := { checkIn := "15:00", checkOut := "11:00" } } }] }

/-- `getMockHotelOffers`: re-query the city listing and synthesize one
offer per returned hotel; if even that listing call fails, return the
basic one-hotel mock. -/
def getMockHotelOffers (u : Upstream) (cityCode : String)
    (checkInDate checkOutDate : Int) (now rnd : Nat) : SearchResponse :=
  match u.listHotels cityCode with
  | .ok hotels =>
      { data := hotels.map (fun h => mockOfferForHotel h checkInDate checkOutDate now rnd) }
  | .error _ =>
      { data := [basicMockEntry cityCode checkInDate checkOutDate now] }

/-- One character of the class `[A-Z0-9-]` under the `i` flag. -/
def isTokenChar (c : Char) : Bool :=
  c.isAlpha || c.isDigit || c == '-'

/-- Greedy `[A-Z0-9-]+` capture: the maximal leading run of class
characters. -/
def takeTokenRun : List Char → List Char
  | [] => []
  | c :: t => if isTokenChar c then c :: takeTokenRun t else []

/-- Whether the regex `OFF-([A-Z0-9-]+)` (with `i`) matches at the head of
the list: a case-insensitive `OFF-` followed by at least one class
character. -/
def isOffAt : List Char → Bool
  | o :: f1 :: f2 :: d :: r :: _ =>
      o.toLower == 'o' && f1.toLower == 'f' && f2.toLower == 'f' &&
        d == '-' && isTokenChar r
  | _ => false

/-- Left-to-right scan of `offerId.match(/OFF-([A-Z0-9-]+)/i)`: at the
first position where the pattern matches, return the greedy capture group. -/
def offTokenScan : List Char → Option (List Char)
  | [] => none
  | c :: t =>
      if isOffAt (c :: t) then some (takeTokenRun (t.drop 3))
      else offTokenScan t

/-- The pseudo hotel identifier `getMockHotelOfferDetails` derives from an
offer identifier: the regex capture when the pattern matches, else the
`MOCK-HOTEL` placeholder. -/
def deriveHotelId (offerId : String) : String :=
  match offTokenScan offerId.toList with
  | some cap => String.mk cap
  | none => "MOCK-HOTEL"

/-- `getMockHotelOfferDetails`: a fixed-shape detail record keyed off the
offer identifier; the hotel identifier is `deriveHotelId offerId` and the
dates are the hardcoded 2025-04-01/2025-04-05 literals (the cancellation
deadline is their epoch value minus three days). -/
def getMockHotelOfferDetails (offerId : String) : DetailResponse :=
  let hotelId := deriveHotelId offerId
  { data :=
      { hotel := { name := "Hotel " ++ hotelId, hotelId := hotelId,
                   rating := 4 },
        id := offerId,
        checkInDate := "2025-04-01",
        checkOutDate := "2025-04-05",
        room :=
          { type := "STANDARD", category := "STANDARD", beds := 1,
            bedType := "KING",
            descText := "Comfortable standard room with modern amenities." },
        price :=
          { currency := "USD", base := 250, total := 275,
            taxes := [{ amount := 25, currency := "USD", included := true }] },
        boardType := "BREAKFAST_INCLUDED",
        policies :=
          { cancellations := [
              { deadline := 1743465600000 - 86400000 * 3, amount := 50,
                type := "PARTIAL" }],
            checkInOut := { checkIn := "15:00", checkOut := "11:00" } } } }

/-- `getMockBookingConfirmation`: fresh `BK`/`PC`/`REF` identifiers from
`Date.now()`, echoing the guest list and the offer identifier. -/
def getMockBookingConfirmation (offerId : String) (guests : List Guest)
    (now : Nat) : BookingResponse :=
  { data :=
      { id := "BK" ++ toString now,
        providerConfirmationId := "PC" ++ toString now,
        associatedRecords := [
          { reference := "REF" ++ toString now, originSystemCode := "MOCK" }],
        guests := guests,
        offerId := offerId } }

/-! ## Orchestrators (`hotelSearch`, lines 571-583; `hotelOffer`, lines
587-600; `hotelBooking`, lines 604-647) -/

/-- `hotelSearch`: try the real implementation; on any thrown error return
the mock offers instead of propagating (the `Except` codomain records that
the caller-facing operation could in principle fail, and the theorems show
it never does). -/
def hotelSearch (u : Upstream) (p : SearchParams) (now rnd : Nat) :
    Except SearchError SearchResponse :=
  match hotelSearchImplementation u p with
  | .ok r => .ok r
  | .error _ =>
      .ok (getMockHotelOffers u p.cityCode p.checkInDate p.checkOutDate now rnd)

/-- `hotelOffer`: query the detail endpoint; on failure return the mock
detail record for the identifier. -/
def hotelOffer (u : Upstream) (offerId : String) :
    Except GatewayError DetailResponse :=
  match u.getOfferById offerId with
  | .ok r => .ok r
  | .error _ => .ok (getMockHotelOfferDetails offerId)

/-- The booking payload transform of `hotelBooking`: the source rebuilds
each guest and payment record field by field, which is the identity here. -/
def bookingBody (p : BookingParams) : BookingBody :=
  { offerId := p.offerId, guests := p.guests, payments := p.payments }

/-- `hotelBooking`: transform and submit; on any failure of the submission
call return the mock confirmation (both the inner and the outer catch end
in `getMockBookingConfirmation`). -/
def hotelBooking (u : Upstream) (p : BookingParams) (now : Nat) :
    Except GatewayError BookingResponse :=
  match u.postBooking (bookingBody p) with
  | .ok r => .ok r
  | .error _ => .ok (getMockBookingConfirmation p.offerId p.guests now)

/-! ## Concrete fixtures for witnesses and counterexamples -/

/-- An upstream whose city listing always returns `hotels` and whose other
endpoints all fail with a simulated 500, as in the degradation scenarios. -/
def oracleOf (hotels : List Hotel) : Upstream :=
  { listHotels := fun _ => .ok hotels,
    getOffers := fun _ _ => .error (.httpError 500 "Internal Server Error"),
    getOfferById := fun _ => .error (.httpError 500 "Internal Server Error"),
    postBooking := fun _ => .error (.httpError 500 "Internal Server Error") }

/-- A five-star hotel with identifier `HLPAR123`. -/
def hParis : Hotel :=
  { hotelId := some "HLPAR123", name := some "Paris Grand Palace",
    rating := some 5 }

/-- A three-star hotel with identifier `HLPAR456`. -/
def hRiver : Hotel :=
  { hotelId := some "HLPAR456", name := some "Riverside Inn",
    rating := some 3 }

/-- A listed hotel that carries no identifier. -/
def unnamedHotel : Hotel :=
  { hotelId := none, name := some "No Id Hotel", rating := some 4 }

/-- Six hotels of which only the sixth has an identifier. -/
def hotelsSix : List Hotel :=
  [unnamedHotel, unnamedHotel, unnamedHotel, unnamedHotel, unnamedHotel,
   { hotelId := some "HTLLAST", name := some "Last Hotel", rating := some 4 }]

/-- Six hotels: the first and the sixth have identifiers, the middle four
do not. -/
def hotelsMix : List Hotel :=
  [{ hotelId := some "HT1", name := some "First Hotel", rating := some 4 },
   unnamedHotel, unnamedHotel, unnamedHotel, unnamedHotel,
   { hotelId := some "HT6", name := some "Sixth Hotel", rating := some 4 }]

/-- Seven hotels, each with an identifier. -/
def hotelsSeven : List Hotel :=
  [{ hotelId := some "HTA", name := some "Hotel A", rating := some 3 },
   { hotelId := some "HTB", name := some "Hotel B", rating := some 3 },
   { hotelId := some "HTC", name := some "Hotel C", rating := some 3 },
   { hotelId := some "HTD", name := some "Hotel D", rating := some 3 },
   { hotelId := some "HTE", name := some "Hotel E", rating := some 3 },
   { hotelId := some "HTF", name := some "Hotel F", rating := some 3 },
   { hotelId := some "HTG", name := some "Hotel G", rating := some 3 }]

/-- The search of the end-to-end example: PAR, 2025-04-01 to 2025-04-05
(epoch milliseconds), 2 adults. -/
def pParis : SearchParams :=
  { cityCode := "PAR", checkInDate := 1743465600000,
    checkOutDate := 1743811200000, adults := 2, roomQuantity := 1,
    currency := some "USD", priceRange := none, boardType := none,
    paymentPolicy := none, hotelName := none }

/-- A cached-token state used by the token-manager witnesses. -/
def stCached : TokenState :=
  { accessToken := some "tok-abc", tokenExpiry := 1000000 }

/-- A concrete single-guest booking request. -/
def bkParams : BookingParams :=
  { offerId := "OFF-HLPAR123-111",
    guests := [{ name := { title := "MR", firstName := "John",
                           lastName := "Doe" },
                 contact := { email := "john.doe@example.com",
                              phone := "+1234567890" } }],
    payments := [{ method := "CREDIT_CARD",
                   card := some { vendorCode := "VI",
                                  cardNumber := "4111111111111111",
                                  expiryDate := "2025-12" } }] }

/-! ## Helper lemmas -/

/-- Strings with the same character data are equal. -/
theorem string_eq_of_data {a b : String} (h : a.data = b.data) : a = b := by
  cases a; cases b; cases h; rfl

/-- Character data of a string concatenation. -/
theorem string_data_append (a b : String) :
    (a ++ b).data = a.data ++ b.data := rfl

/-- String concatenation is associative. -/
theorem string_append_assoc (a b c : String) :
    a ++ b ++ c = a ++ (b ++ c) := by
  apply string_eq_of_data
  simp [string_data_append, List.append_assoc]

/-- A concatenation whose left part has characters is not the empty
string. -/
theorem string_append_left_ne_empty (a b : String) (h : a.data ≠ []) :
    a ++ b ≠ "" := by
  intro hc
  apply h
  have hd := congrArg String.data hc
  rw [string_data_append] at hd
  exact (List.append_eq_nil.mp hd).1

/-- Both identifiers of the mock booking confirmation are non-empty. -/
theorem getMockBookingConfirmation_ids_ne_empty (offerId : String)
    (guests : List Guest) (now : Nat) :
    (getMockBookingConfirmation offerId guests now).data.id ≠ "" ∧
    (getMockBookingConfirmation offerId guests now).data.providerConfirmationId ≠ "" :=
  ⟨string_append_left_ne_empty "BK" (toString now) (by decide),
   string_append_left_ne_empty "PC" (toString now) (by decide)⟩

/-- The character list of a string is its data. -/
theorem string_toList_eq (s : String) : s.toList = s.data := rfl

/-- The greedy token capture keeps a list entirely made of class
characters. -/
theorem takeTokenRun_all (l : List Char)
    (h : ∀ c ∈ l, isTokenChar c = true) : takeTokenRun l = l := by
  induction l with
  | nil => rfl
  | cons c t ih =>
      rw [takeTokenRun, if_pos (h c (List.mem_cons_self c t)),
        ih (fun x hx => h x (List.mem_cons_of_mem _ hx))]

/-! ## Claim theorems -/

/-- C2: while the cached token's stored expiry instant is strictly in the
future, `getAccessToken` returns the cached token value unchanged and
issues no renewal exchange; two calls 1 second (1000 ms) apart, both
before that boundary, return the same token value. -/
theorem getAccessToken_cached_reuse (st : TokenState) (t : String)
    (now : Int) (ex1 ex2 : Except GatewayError TokenResponse)
    (hcache : st.accessToken = some t) (hne : t ≠ "")
    (hfresh : now + 1000 < st.tokenExpiry) :
    (getAccessToken st now ex1).result = .ok t ∧
    (getAccessToken st now ex1).exchanged = false ∧
    (getAccessToken st now ex1).state = st ∧
    (getAccessToken (getAccessToken st now ex1).state (now + 1000) ex2).result
      = .ok t ∧
    (getAccessToken (getAccessToken st now ex1).state (now + 1000) ex2).exchanged
      = false := by
  have htr : tokenTruthy st = true := by
    simp [tokenTruthy, hcache, hne]
  have key : ∀ (now2 : Int) (ex : Except GatewayError TokenResponse),
      now2 < st.tokenExpiry →
      getAccessToken st now2 ex
        = { result := .ok t, state := st, exchanged := false } := by
    intro now2 ex h2
    unfold getAccessToken
    rw [if_pos ⟨htr, h2⟩]
    simp [cachedValue, hcache]
  have h1 := key now ex1 (by omega)
  rw [h1]
  have h2 := key (now + 1000) ex2 hfresh
  rw [h2]
  exact ⟨rfl, rfl, rfl, rfl, rfl⟩

/-- C2 witness: a concrete cached state reused across two calls 1000 ms
apart, with renewal responses available but unused. -/
theorem getAccessToken_cached_reuse_witness :
    (getAccessToken stCached 500 (.ok ⟨"other", 1799⟩)).result
      = .ok "tok-abc" ∧
    (getAccessToken stCached 500 (.ok ⟨"other", 1799⟩)).exchanged = false ∧
    (getAccessToken stCached 500 (.ok ⟨"other", 1799⟩)).state = stCached ∧
    (getAccessToken (getAccessToken stCached 500 (.ok ⟨"other", 1799⟩)).state
      (500 + 1000) (.ok ⟨"fresh", 100⟩)).result = .ok "tok-abc" ∧
    (getAccessToken (getAccessToken stCached 500 (.ok ⟨"other", 1799⟩)).state
      (500 + 1000) (.ok ⟨"fresh", 100⟩)).exchanged = false :=
  getAccessToken_cached_reuse stCached "tok-abc" 500
    (.ok ⟨"other", 1799⟩) (.ok ⟨"fresh", 100⟩) rfl (by decide) (by decide)

/-- C9: when a renewal is attempted (the cached token is absent or
expired) and the credential exchange fails, `getAccessToken` rethrows the
failure and leaves the cached token state exactly as it was. -/
theorem getAccessToken_failed_renewal_preserves_state (st : TokenState)
    (now : Int) (e : GatewayError)
    (h : ¬(tokenTruthy st = true ∧ st.tokenExpiry > now)) :
    getAccessToken st now (.error e)
      = { result := .error e, state := st, exchanged := true } := by
  unfold getAccessToken
  rw [if_neg h]

/-- C9 witness: a failed first exchange leaves the initial empty cache
untouched. -/
theorem getAccessToken_failed_renewal_preserves_state_witness :
    getAccessToken { accessToken := none, tokenExpiry := 0 } 0
        (.error (.networkError "ECONNREFUSED"))
      = { result := .error (.networkError "ECONNREFUSED"),
          state := { accessToken := none, tokenExpiry := 0 },
          exchanged := true } :=
  getAccessToken_failed_renewal_preserves_state
    { accessToken := none, tokenExpiry := 0 } 0
    (.networkError "ECONNREFUSED") (by decide)

/-- C3: when the city listing is non-empty and the name filter matches no
returned hotel name, the discovery stage falls back to the unfiltered
hotel list and produces exactly the identifiers of an unfiltered call. -/
theorem nameFilter_zero_matches_falls_back (u : Upstream)
    (cityCode f : String) (hotels : List Hotel)
    (hlist : u.listHotels cityCode = .ok hotels) (hne : hotels ≠ [])
    (hnone : ∀ h ∈ hotels, hotelNameMatches (strLower f) h = false) :
    discoverHotels hotels (some f) = hotels ∧
    discoverHotelIds u cityCode (some f) = discoverHotelIds u cityCode none := by
  have hdh : discoverHotels hotels (some f) = hotels := by
    have hfil : hotels.filter (hotelNameMatches (strLower f)) = [] :=
      List.filter_eq_nil_iff.mpr (fun a ha => by simp [hnone a ha])
    by_cases hf : f = ""
    · simp [discoverHotels, truthyStr, hf]
    · simp [discoverHotels, truthyStr, hf, hfil]
  refine ⟨hdh, ?_⟩
  unfold discoverHotelIds
  simp only [hlist, hdh]
  rfl

/-- C3 witness: a filter matching neither listed hotel name produces the
unfiltered identifiers. -/
theorem nameFilter_zero_matches_falls_back_witness :
    discoverHotels [hParis, hRiver] (some "zzz") = [hParis, hRiver] ∧
    discoverHotelIds (oracleOf [hParis, hRiver]) "PAR" (some "zzz")
      = discoverHotelIds (oracleOf [hParis, hRiver]) "PAR" none :=
  nameFilter_zero_matches_falls_back (oracleOf [hParis, hRiver]) "PAR"
    "zzz" [hParis, hRiver] rfl (by decide) (by decide)

/-- C4: identifiers handed to the offers query come from the first 5
name-filtered hotels, number at most 5, and `hotelSearchImplementation`
issues its offers request with exactly that list. -/
theorem discovery_caps_ids_at_five (u : Upstream) (p : SearchParams)
    (ids : List String)
    (hids : discoverHotelIds u p.cityCode p.hotelName = .ok ids) :
    ids.length ≤ 5 ∧
    (∃ hotels, u.listHotels p.cityCode = .ok hotels ∧
       ids = ((discoverHotels hotels p.hotelName).take 5).filterMap truthyId) ∧
    hotelSearchImplementation u p
      = Except.mapError SearchError.gateway (u.getOffers ids p) := by
  have hmain : ids.length ≤ 5 ∧
      ∃ hotels, u.listHotels p.cityCode = .ok hotels ∧
        ids = ((discoverHotels hotels p.hotelName).take 5).filterMap truthyId := by
    unfold discoverHotelIds at hids
    cases hl : u.listHotels p.cityCode with
    | error e => simp only [hl] at hids; cases hids
    | ok hotels =>
        simp only [hl] at hids
        by_cases hemp : hotels.isEmpty = true
        · rw [if_pos hemp] at hids; cases hids
        · rw [if_neg hemp] at hids
          by_cases hid0 :
              (((discoverHotels hotels p.hotelName).take 5).filterMap
                truthyId).isEmpty = true
          · rw [if_pos hid0] at hids; cases hids
          · rw [if_neg hid0] at hids
            have hids' := Except.ok.inj hids
            subst hids'
            refine ⟨?_, hotels, rfl, rfl⟩
            calc (((discoverHotels hotels p.hotelName).take 5).filterMap
                    truthyId).length
                ≤ ((discoverHotels hotels p.hotelName).take 5).length :=
                  List.length_filterMap_le _ _
              _ ≤ 5 := List.length_take_le _ _
  refine ⟨hmain.1, hmain.2, ?_⟩
  unfold hotelSearchImplementation
  simp only [hids]
  cases hg : u.getOffers ids p <;> simp [hg, Except.mapError]

/-- C4 witness: seven identifier-bearing hotels are truncated to the first
five identifiers. -/
theorem discovery_caps_ids_at_five_witness :
    (["HTA", "HTB", "HTC", "HTD", "HTE"] : List String).length ≤ 5 ∧
    (∃ hotels, (oracleOf hotelsSeven).listHotels pParis.cityCode = .ok hotels ∧
       ["HTA", "HTB", "HTC", "HTD", "HTE"]
         = ((discoverHotels hotels pParis.hotelName).take 5).filterMap truthyId) ∧
    hotelSearchImplementation (oracleOf hotelsSeven) pParis
      = Except.mapError SearchError.gateway
          ((oracleOf hotelsSeven).getOffers
            ["HTA", "HTB", "HTC", "HTD", "HTE"] pParis) :=
  discovery_caps_ids_at_five (oracleOf hotelsSeven) pParis
    ["HTA", "HTB", "HTC", "HTD", "HTE"] (by decide)

/-- C5: the discovery stage fails with NoInventory exactly when the city
listing itself returns zero hotels; the check precedes name filtering, so
a filter-induced empty set is never reported as NoInventory. -/
theorem noInventory_iff_empty_city_listing (u : Upstream)
    (cityCode : String) (nameFilter : Option String) :
    discoverHotelIds u cityCode nameFilter = .error (.noInventory cityCode) ↔
      u.listHotels cityCode = .ok [] := by
  unfold discoverHotelIds
  cases hl : u.listHotels cityCode with
  | error e => simp
  | ok hotels =>
      cases hotels with
      | nil => simp [List.isEmpty]
      | cons h t =>
          simp only [List.isEmpty, Bool.false_eq_true, if_false]
          split <;> simp

/-- C5 witness: an upstream returning zero hotels for NYC makes discovery
fail with NoInventory. -/
theorem noInventory_iff_empty_city_listing_witness :
    discoverHotelIds (oracleOf []) "NYC" none = .error (.noInventory "NYC") :=
  (noInventory_iff_empty_city_listing (oracleOf []) "NYC" none).mpr rfl

/-- C10: truncation to 5 happens before identifier filtering: on a
non-empty unfiltered listing the discovery result is determined by the
truthy identifiers of the first 5 hotels alone, failing (and feeding
degradation) when none of those first 5 has one, regardless of later
hotels. -/
theorem discovery_truncates_before_id_filter (u : Upstream)
    (cityCode : String) (hotels : List Hotel)
    (hlist : u.listHotels cityCode = .ok hotels) (hne : hotels ≠ []) :
    discoverHotelIds u cityCode none =
      (if ((hotels.take 5).filterMap truthyId).isEmpty
       then .error .noValidIds
       else .ok ((hotels.take 5).filterMap truthyId)) := by
  have hemp : ¬(hotels.isEmpty = true) := by
    cases hotels with
    | nil => exact absurd rfl hne
    | cons a t => simp
  unfold discoverHotelIds
  simp only [hlist]
  rw [if_neg hemp]
  rfl

/-- C10 witness: with identifiers only beyond position 5 the discovery
fails although the listing is non-empty, and with identifiers at positions
1 and 6 only the first survives. -/
theorem discovery_truncates_before_id_filter_witness :
    discoverHotelIds (oracleOf hotelsSix) "PAR" none = .error .noValidIds ∧
    discoverHotelIds (oracleOf hotelsMix) "PAR" none = .ok ["HT1"] := by
  constructor
  · rw [discovery_truncates_before_id_filter (oracleOf hotelsSix) "PAR"
      hotelsSix rfl (by decide)]
    decide
  · rw [discovery_truncates_before_id_filter (oracleOf hotelsMix) "PAR"
      hotelsMix rfl (by decide)]
    decide

/-- C1: the search substitute contains one offer per known hotel, with
base `100 + rating * 50`, total `base * 1.1`, one included tax of
`base * 0.1`, a SUITE room exactly for rating at least 5, a cancellation
deadline of check-in minus 3 days, and 15:00/11:00 check-in/out times
(ratings as carried by the hotel record; a missing or zero rating is
coerced to 4 first, so the per-hotel clause takes a positive stored
rating). -/
theorem mock_search_degradation_fields (u : Upstream) (cityCode : String)
    (checkInDate checkOutDate : Int) (now rnd : Nat) (hotels : List Hotel)
    (hlist : u.listHotels cityCode = .ok hotels) (hne : hotels ≠ []) :
    (getMockHotelOffers u cityCode checkInDate checkOutDate now rnd).data
      = hotels.map (fun h => mockOfferForHotel h checkInDate checkOutDate now rnd) ∧
    ∀ (h : Hotel) (r : Nat), h.rating = some r → 0 < r →
      ∃ o, (mockOfferForHotel h checkInDate checkOutDate now rnd).hotel = h ∧
        (mockOfferForHotel h checkInDate checkOutDate now rnd).offers = [o] ∧
        o.price.base = 100 + (r : ℚ) * 50 ∧
        o.price.total = (100 + (r : ℚ) * 50) * 1.1 ∧
        o.price.taxes = [{ amount := (100 + (r : ℚ) * 50) * 0.1,
                           currency := "USD", included := true }] ∧
        ((o.room.type = "SUITE") ↔ 5 ≤ r) ∧
        (∃ c, o.policies.cancellations = [c] ∧
           c.deadline = checkInDate - 86400000 * 3) ∧
        o.policies.checkInOut.checkIn = "15:00" ∧
        o.policies.checkInOut.checkOut = "11:00" := by
  constructor
  · unfold getMockHotelOffers
    simp only [hlist]
  · intro h r hr hr0
    have hjs : jsRating h.rating = r := by
      rw [hr]
      show (if r = 0 then 4 else r) = r
      rw [if_neg (by omega)]
    refine ⟨_, rfl, rfl, ?_, ?_, ?_, ?_, ⟨_, rfl, rfl⟩, rfl, rfl⟩
    · show (100 : ℚ) + (jsRating h.rating : ℚ) * 50 = 100 + (r : ℚ) * 50
      rw [hjs]
    · show ((100 : ℚ) + (jsRating h.rating : ℚ) * 50) * 1.1
        = (100 + (r : ℚ) * 50) * 1.1
      rw [hjs]
    · show [({ amount := ((100 : ℚ) + (jsRating h.rating : ℚ) * 50) * 0.1,
               currency := "USD", included := true } : Tax)]
        = [{ amount := (100 + (r : ℚ) * 50) * 0.1,
             currency := "USD", included := true }]
      rw [hjs]
    · show ((if 5 ≤ jsRating h.rating then "SUITE" else "STANDARD") = "SUITE")
        ↔ 5 ≤ r
      rw [hjs]
      constructor
      · intro hs
        by_contra hlt
        rw [if_neg hlt] at hs
        exact absurd hs (by decide)
      · intro h5
        rw [if_pos h5]

/-- C1 witness: one five-star upstream hotel yields one SUITE offer with
base 350 and total 385 (exact rational arithmetic; the two-decimal reading
of the 385.00... literal). -/
theorem mock_search_degradation_fields_witness :
    (getMockHotelOffers (oracleOf [hParis]) "PAR" 1743465600000 1743811200000
      111 9).data = [mockOfferForHotel hParis 1743465600000 1743811200000 111 9] ∧
    ∃ o, (mockOfferForHotel hParis 1743465600000 1743811200000 111 9).offers
        = [o] ∧
      o.room.type = "SUITE" ∧ o.price.base = 350 ∧ o.price.total = 385 := by
  have hmain := mock_search_degradation_fields (oracleOf [hParis]) "PAR"
    1743465600000 1743811200000 111 9 [hParis] rfl (by decide)
  refine ⟨by simpa using hmain.1, ?_⟩
  obtain ⟨o, hhot, hoff, hbase, htot, htax, hsuite, hcanc, hci, hco⟩ :=
    hmain.2 hParis 5 rfl (by decide)
  refine ⟨o, hoff, hsuite.mpr (by decide), ?_, ?_⟩
  · rw [hbase]; norm_num
  · rw [htot]; norm_num

/-- C6: `hotelSearch` propagates no error of the discovery or offers
steps: it always returns a result of the search-response shape, and on any
implementation failure that result is the Degradation Layer substitute. -/
theorem hotelSearch_never_propagates (u : Upstream) (p : SearchParams)
    (now rnd : Nat) :
    ∃ r, hotelSearch u p now rnd = .ok r ∧
      (∀ e, hotelSearchImplementation u p = .error e →
        r = getMockHotelOffers u p.cityCode p.checkInDate p.checkOutDate
              now rnd) := by
  unfold hotelSearch
  cases himpl : hotelSearchImplementation u p with
  | ok r => exact ⟨r, rfl, fun e he => Except.noConfusion he⟩
  | error e => exact ⟨_, rfl, fun _ _ => rfl⟩

/-- C6 witness: with the offers endpoint failing with a simulated 500, the
search still returns a non-error result. -/
theorem hotelSearch_never_propagates_witness :
    ∃ r, hotelSearch (oracleOf [hParis]) pParis 111 9 = .ok r ∧
      (∀ e, hotelSearchImplementation (oracleOf [hParis]) pParis = .error e →
        r = getMockHotelOffers (oracleOf [hParis]) pParis.cityCode
              pParis.checkInDate pParis.checkOutDate 111 9) :=
  hotelSearch_never_propagates (oracleOf [hParis]) pParis 111 9

/-- C7: for a booking request with at least one guest and one payment
instrument (against an upstream whose successful confirmations honor the
interface contract of non-empty identifiers), `hotelBooking` returns a
confirmation with non-empty id and providerConfirmationId, which on a
failed submission is the freshly generated mock pair; the transport error
is never propagated. -/
theorem hotelBooking_confirmation_nonempty (u : Upstream)
    (p : BookingParams) (now : Nat)
    (hg : p.guests ≠ []) (hp : p.payments ≠ [])
    (hok : ∀ r, u.postBooking (bookingBody p) = .ok r →
        r.data.id ≠ "" ∧ r.data.providerConfirmationId ≠ "") :
    ∃ res, hotelBooking u p now = .ok res ∧
      res.data.id ≠ "" ∧ res.data.providerConfirmationId ≠ "" ∧
      ∀ e, u.postBooking (bookingBody p) = .error e →
        res = getMockBookingConfirmation p.offerId p.guests now := by
  unfold hotelBooking
  cases hpost : u.postBooking (bookingBody p) with
  | ok r =>
      exact ⟨r, rfl, (hok r hpost).1, (hok r hpost).2,
        fun e he => Except.noConfusion he⟩
  | error e =>
      exact ⟨getMockBookingConfirmation p.offerId p.guests now, rfl,
        (getMockBookingConfirmation_ids_ne_empty p.offerId p.guests now).1,
        (getMockBookingConfirmation_ids_ne_empty p.offerId p.guests now).2,
        fun _ _ => rfl⟩

/-- C7 witness: a concrete one-guest booking against a failing submission
endpoint yields the mock confirmation with non-empty identifiers. -/
theorem hotelBooking_confirmation_nonempty_witness :
    ∃ res, hotelBooking (oracleOf []) bkParams 77 = .ok res ∧
      res.data.id ≠ "" ∧ res.data.providerConfirmationId ≠ "" ∧
      ∀ e, (oracleOf []).postBooking (bookingBody bkParams) = .error e →
        res = getMockBookingConfirmation bkParams.offerId bkParams.guests 77 :=
  hotelBooking_confirmation_nonempty (oracleOf []) bkParams 77
    (by decide) (by decide) (fun r hr => by cases hr)

/-- C8 counterexample: the degraded search for one five-star hotel with
identifier `HLPAR123` produces offer identifier `OFF-HLPAR123-111`
(embedded hotel token `HLPAR123`, suffix `111`), yet the degraded detail
lookup for that identifier reports hotel identifier `HLPAR123-111` — the
token with the suffix still attached — because the capture class
`[A-Z0-9-]` also swallows the dash and the digits of the suffix. -/
theorem offerId_token_roundtrip_cex :
    hotelSearch (oracleOf [hParis]) pParis 111 9 =
      .ok { data := [mockOfferForHotel hParis 1743465600000 1743811200000
                      111 9] } ∧
    (mockOfferForHotel hParis 1743465600000 1743811200000 111 9).offers.map
      Offer.id = ["OFF-" ++ "HLPAR123" ++ "-" ++ "111"] ∧
    hotelOffer (oracleOf [hParis]) "OFF-HLPAR123-111"
      = .ok (getMockHotelOfferDetails "OFF-HLPAR123-111") ∧
    (getMockHotelOfferDetails "OFF-HLPAR123-111").data.hotel.hotelId
      = "HLPAR123-111" ∧
    "HLPAR123-111" ≠ "HLPAR123" := by
  exact ⟨rfl, by decide, by decide, by decide, by decide⟩

/-- C8 amended: for an offer identifier of the produced form
`OFF-<token>-<suffix>` (token and suffix non-empty strings over the
capture class), the degraded detail record's hotel identifier is the
identifier with the leading `OFF-` stripped, i.e. the embedded hotel token
followed by the dash and the suffix: the token is recoverable as a leading
segment of the reported identifier, not equal to it. -/
theorem offerId_token_roundtrip_amended (hid ts : String)
    (h1 : hid.data ≠ [])
    (h2 : ∀ c ∈ hid.data, isTokenChar c = true)
    (h3 : ∀ c ∈ ts.data, isTokenChar c = true) :
    (getMockHotelOfferDetails ("OFF-" ++ hid ++ "-" ++ ts)).data.hotel.hotelId
      = hid ++ "-" ++ ts ∧
    ∃ rest, hid ++ "-" ++ ts = hid ++ rest := by
  refine ⟨?_, "-" ++ ts, string_append_assoc hid "-" ts⟩
  show deriveHotelId ("OFF-" ++ hid ++ "-" ++ ts) = hid ++ "-" ++ ts
  obtain ⟨c0, t0, hht⟩ : ∃ c0 t0, hid.data = c0 :: t0 := by
    cases hcd : hid.data with
    | nil => exact absurd hcd h1
    | cons a b => exact ⟨a, b, rfl⟩
  have hc0 : isTokenChar c0 = true :=
    h2 c0 (by rw [hht]; exact List.mem_cons_self _ _)
  have hall : ∀ c ∈ c0 :: (t0 ++ '-' :: ts.data), isTokenChar c = true := by
    intro c hc
    rcases List.mem_cons.mp hc with hc | hc
    · subst hc; exact hc0
    · rcases List.mem_append.mp hc with hc | hc
      · exact h2 c (by rw [hht]; exact List.mem_cons_of_mem _ hc)
      · rcases List.mem_cons.mp hc with hc | hc
        · subst hc; decide
        · exact h3 c hc
  have hdata : ("OFF-" ++ hid ++ "-" ++ ts).toList
      = 'O' :: 'F' :: 'F' :: '-' :: (c0 :: (t0 ++ '-' :: ts.data)) := by
    rw [string_toList_eq]
    simp [string_data_append, hht]
  unfold deriveHotelId
  rw [hdata]
  have hoff : isOffAt ('O' :: 'F' :: 'F' :: '-' :: (c0 :: (t0 ++ '-' :: ts.data)))
      = true := by
    simp [isOffAt, hc0]
  simp only [offTokenScan, hoff, if_true]
  have hdrop : (('F' :: 'F' :: '-' :: (c0 :: (t0 ++ '-' :: ts.data))).drop 3)
      = c0 :: (t0 ++ '-' :: ts.data) := rfl
  rw [hdrop, takeTokenRun_all _ hall]
  apply string_eq_of_data
  simp [string_data_append, hht]

/-- C8 amended witness: the concrete produced identifier
`OFF-HLPAR123-111` round-trips to detail hotel identifier `HLPAR123-111`,
of which the embedded token is a leading segment. -/
theorem offerId_token_roundtrip_amended_witness :
    (getMockHotelOfferDetails ("OFF-" ++ "HLPAR123" ++ "-" ++ "111")).data.hotel.hotelId
      = "HLPAR123" ++ "-" ++ "111" ∧
    ∃ rest, "HLPAR123" ++ "-" ++ "111" = "HLPAR123" ++ rest :=
  offerId_token_roundtrip_amended "HLPAR123" "111"
    (by decide) (by decide) (by decide)

end Amadeus
